import Mathlib

/-!
Verification of the foundation layer of a 2D rocket flight simulator
(modules sim/utils.py, sim/state.py, sim/config.py, sim/result.py).

Python floats are modelled as real numbers; Python's float modulo
`a % b` with a positive divisor `b` is `a - b * ⌊a / b⌋`; Python's
`int(x)` on a float truncates toward zero.  Dataclass constructors,
which in Python could raise at construction time, are modelled as
Option-valued builders: a raised exception would be `none`, a normal
return is `some`.
-/

namespace FlightSim

/-- From sim/utils.py: clamp(value, lo, hi) = max(lo, min(hi, value)). -/
def clamp (value lo hi : ℝ) : ℝ :=
  max lo (min hi value)

/-- From sim/utils.py: wrap_angle(theta) = (theta + pi) % (2*pi) - pi,
with Python float modulo by a positive divisor. -/
noncomputable def wrap_angle (theta : ℝ) : ℝ :=
  (theta + Real.pi) - (2 * Real.pi) * ⌊(theta + Real.pi) / (2 * Real.pi)⌋ - Real.pi

lemma wrap_angle_eq_toIcoMod (theta : ℝ) :
    wrap_angle theta = toIcoMod Real.two_pi_pos (-Real.pi) theta := by
  rw [toIcoMod, toIcoDiv_eq_floor, zsmul_eq_mul, sub_neg_eq_add]
  unfold wrap_angle
  ring

lemma neg_pi_add_two_pi : -Real.pi + 2 * Real.pi = Real.pi := by ring

lemma wrap_angle_mem (theta : ℝ) :
    wrap_angle theta ∈ Set.Ico (-Real.pi) Real.pi := by
  have h := toIcoMod_mem_Ico Real.two_pi_pos (-Real.pi) theta
  rw [neg_pi_add_two_pi] at h
  rwa [wrap_angle_eq_toIcoMod]

lemma wrap_angle_pi_eq : wrap_angle Real.pi = -Real.pi := by
  have h1 : toIcoMod Real.two_pi_pos (-Real.pi) (-Real.pi + 2 * Real.pi)
      = toIcoMod Real.two_pi_pos (-Real.pi) (-Real.pi) :=
    toIcoMod_add_right Real.two_pi_pos (-Real.pi) (-Real.pi)
  have h2 : toIcoMod Real.two_pi_pos (-Real.pi) (-Real.pi) = -Real.pi :=
    (toIcoMod_eq_self Real.two_pi_pos).2
      ⟨le_refl _, by rw [neg_pi_add_two_pi]; linarith [Real.pi_pos]⟩
  have h0 : Real.pi = -Real.pi + 2 * Real.pi := by ring
  rw [wrap_angle_eq_toIcoMod]
  nth_rewrite 3 [h0]
  rw [h1, h2]

/-- C2 (amended): for every real theta, wrap_angle(theta) lies in the
half-open interval [-pi, pi): at least -pi, strictly less than pi. -/
theorem wrap_angle_mem_Ico (theta : ℝ) :
    -Real.pi ≤ wrap_angle theta ∧ wrap_angle theta < Real.pi :=
  ⟨(wrap_angle_mem theta).1, (wrap_angle_mem theta).2⟩

/-- C2 (counterexample): at theta = pi the claimed membership in
(-pi, pi] fails: wrap_angle(pi) = -pi, which is not greater than -pi. -/
theorem wrap_angle_pi_not_mem_Ioc :
    wrap_angle Real.pi = -Real.pi ∧
      ¬ (-Real.pi < wrap_angle Real.pi ∧ wrap_angle Real.pi ≤ Real.pi) := by
  refine ⟨wrap_angle_pi_eq, ?_⟩
  rw [wrap_angle_pi_eq]
  exact fun h => lt_irrefl _ h.1

/-- C5: wrap_angle is invariant under adding a full turn, and idempotent. -/
theorem wrap_angle_period_and_idempotent (theta : ℝ) :
    wrap_angle (theta + 2 * Real.pi) = wrap_angle theta ∧
      wrap_angle (wrap_angle theta) = wrap_angle theta := by
  constructor
  · rw [wrap_angle_eq_toIcoMod, wrap_angle_eq_toIcoMod, toIcoMod_add_right]
  · have hmem := wrap_angle_mem theta
    rw [wrap_angle_eq_toIcoMod (wrap_angle theta)]
    exact (toIcoMod_eq_self Real.two_pi_pos).2 (by rwa [neg_pi_add_two_pi])

/-- C10: for lo ≤ hi, clamp(v, lo, hi) lies in [lo, hi], and clamp is the
identity on in-range inputs. -/
theorem clamp_spec (v lo hi : ℝ) (h : lo ≤ hi) :
    (lo ≤ clamp v lo hi ∧ clamp v lo hi ≤ hi) ∧
      (lo ≤ v → v ≤ hi → clamp v lo hi = v) := by
  unfold clamp
  refine ⟨⟨le_max_left _ _, max_le h (min_le_left _ _)⟩, fun hlo hhi => ?_⟩
  rw [min_eq_right hhi, max_eq_right hlo]

/-- C10 witness: clamp at concrete in-range input v = 5, lo = 0, hi = 10. -/
theorem clamp_spec_witness :
    ((0:ℝ) ≤ clamp 5 0 10 ∧ clamp 5 0 10 ≤ 10) ∧ clamp 5 0 10 = 5 := by
  have h := clamp_spec 5 0 10 (by norm_num)
  exact ⟨h.1, h.2 (by norm_num) (by norm_num)⟩

/-- From sim/utils.py: rotation_matrix(theta) returns the 2x2 array
with rows [-sin theta, cos theta] and [cos theta, sin theta]. -/
noncomputable def rotation_matrix (theta : ℝ) : Matrix (Fin 2) (Fin 2) ℝ :=
  !![-Real.sin theta, Real.cos theta; Real.cos theta, Real.sin theta]

/-- From sim/utils.py: body_to_world(vec_body, theta) = rotation_matrix(theta) @ vec_body. -/
noncomputable def body_to_world (vec_body : Fin 2 → ℝ) (theta : ℝ) : Fin 2 → ℝ :=
  (rotation_matrix theta).mulVec vec_body

lemma rotation_matrix_mulVec_nose (theta : ℝ) :
    (rotation_matrix theta).mulVec ![1, 0] = ![-Real.sin theta, Real.cos theta] := by
  funext i
  fin_cases i <;>
    simp [rotation_matrix, Matrix.mulVec, Matrix.dotProduct, Fin.sum_univ_two]

/-- C7: rotation_matrix(0) applied to [1, 0] yields exactly [0, 1]. -/
theorem rotation_matrix_zero_nose_up :
    (rotation_matrix 0).mulVec ![1, 0] = ![0, 1] := by
  rw [rotation_matrix_mulVec_nose, Real.sin_zero, Real.cos_zero, neg_zero]

/-- C1 (code evaluation at the failing input): at theta = pi/2 the code's
rotation_matrix sends the body nose vector [1, 0] to [-1, 0], not to
[sin(pi/2), cos(pi/2)] = [1, 0] as the claim requires. -/
theorem rotation_matrix_pi_div_two_nose :
    (rotation_matrix (Real.pi / 2)).mulVec ![1, 0] = ![-1, 0] ∧
      ¬ (rotation_matrix (Real.pi / 2)).mulVec ![1, 0]
          = ![Real.sin (Real.pi / 2), Real.cos (Real.pi / 2)] := by
  have h : (rotation_matrix (Real.pi / 2)).mulVec ![1, 0] = ![-1, 0] := by
    rw [rotation_matrix_mulVec_nose, Real.sin_pi_div_two, Real.cos_pi_div_two]
  refine ⟨h, fun hc => ?_⟩
  rw [h, Real.sin_pi_div_two, Real.cos_pi_div_two] at hc
  have h0 := congrFun hc 0
  simp at h0
  linarith

/-- C9: for every theta, rotation_matrix(theta) is symmetric, is its own
inverse, has determinant -1, and applying body_to_world twice with the same
theta returns the original vector. -/
theorem rotation_matrix_reflection (theta : ℝ) :
    Matrix.transpose (rotation_matrix theta) = rotation_matrix theta ∧
      rotation_matrix theta * rotation_matrix theta = 1 ∧
      (rotation_matrix theta).det = -1 ∧
      ∀ v : Fin 2 → ℝ, body_to_world (body_to_world v theta) theta = v := by
  have hsq := Real.sin_sq_add_cos_sq theta
  have hmul : rotation_matrix theta * rotation_matrix theta = 1 := by
    ext i j
    fin_cases i <;> fin_cases j <;>
      simp [rotation_matrix, Matrix.mul_apply, Fin.sum_univ_two, Matrix.one_apply] <;>
      nlinarith [hsq]
  refine ⟨?_, hmul, ?_, fun v => ?_⟩
  · ext i j
    fin_cases i <;> fin_cases j <;> simp [rotation_matrix]
  · rw [rotation_matrix, Matrix.det_fin_two_of]
    nlinarith [hsq]
  · unfold body_to_world
    rw [Matrix.mulVec_mulVec, hmul, Matrix.one_mulVec]

/-- From sim/state.py: the 7-field rocket state dataclass, every field
defaulting to 0.0. -/
structure RocketState where
  x : ℝ := 0
  y : ℝ := 0
  vx : ℝ := 0
  vy : ℝ := 0
  theta : ℝ := 0
  omega : ℝ := 0
  mass : ℝ := 0

/-- From sim/state.py: RocketState.to_array packs the fields in the order
[x, y, vx, vy, theta, omega, mass]. -/
def RocketState.to_array (s : RocketState) : Fin 7 → ℝ :=
  ![s.x, s.y, s.vx, s.vy, s.theta, s.omega, s.mass]

/-- From sim/state.py: RocketState.from_array reads indices 0..6 back into
the fields; float(arr[i]) is the identity on the real model. -/
def RocketState.from_array (arr : Fin 7 → ℝ) : RocketState :=
  { x := arr 0, y := arr 1, vx := arr 2, vy := arr 3,
    theta := arr 4, omega := arr 5, mass := arr 6 }

/-- C4: for every RocketState s, from_array(to_array(s)) = s, every field
reproduced exactly. -/
theorem RocketState.from_array_to_array (s : RocketState) :
    RocketState.from_array s.to_array = s := rfl

/-- From sim/result.py: the per-step FlightRecord dataclass; sensor and
Kalman-estimate fields all default to 0.0, the state to RocketState(). -/
structure FlightRecord where
  time : ℝ := 0
  state : RocketState := {}
  thrust : ℝ := 0
  gimbal_angle : ℝ := 0
  accel_reading : ℝ := 0
  gyro_reading : ℝ := 0
  altimeter_reading : ℝ := 0
  gps_x_reading : ℝ := 0
  gps_y_reading : ℝ := 0
  estimated_x : ℝ := 0
  estimated_y : ℝ := 0
  estimated_vx : ℝ := 0
  estimated_vy : ℝ := 0
  estimated_theta : ℝ := 0
  estimated_omega : ℝ := 0

/-- Construction of a FlightRecord giving only time, state, thrust and
gimbal angle, as in FlightRecord(time=..., state=..., thrust=...): every
other field takes the dataclass default. -/
def mkFlightRecord (time : ℝ) (state : RocketState) (thrust gimbal_angle : ℝ) :
    FlightRecord :=
  { time := time, state := state, thrust := thrust, gimbal_angle := gimbal_angle }

/-- C8: a FlightRecord constructed without explicit sensor or estimate
values has every raw sensor reading field and every filter-estimate field
equal to 0. -/
theorem mkFlightRecord_sensor_estimate_defaults
    (t : ℝ) (s : RocketState) (f g : ℝ) :
    (mkFlightRecord t s f g).accel_reading = 0 ∧
      (mkFlightRecord t s f g).gyro_reading = 0 ∧
      (mkFlightRecord t s f g).altimeter_reading = 0 ∧
      (mkFlightRecord t s f g).gps_x_reading = 0 ∧
      (mkFlightRecord t s f g).gps_y_reading = 0 ∧
      (mkFlightRecord t s f g).estimated_x = 0 ∧
      (mkFlightRecord t s f g).estimated_y = 0 ∧
      (mkFlightRecord t s f g).estimated_vx = 0 ∧
      (mkFlightRecord t s f g).estimated_vy = 0 ∧
      (mkFlightRecord t s f g).estimated_theta = 0 ∧
      (mkFlightRecord t s f g).estimated_omega = 0 :=
  ⟨rfl, rfl, rfl, rfl, rfl, rfl, rfl, rfl, rfl, rfl, rfl⟩

/-- From sim/config.py: RocketConfig dataclass with its default values;
math.radians(5.0) is 5 * pi / 180. -/
structure RocketConfig where
  dry_mass : ℝ := 50
  fuel_mass : ℝ := 30
  max_thrust : ℝ := 1200
  Isp : ℝ := 220
  length : ℝ := 2
  diameter : ℝ := 0.15
  drag_coeff : ℝ := 0.4
  moment_of_inertia : ℝ := 80
  cg_offset : ℝ := 0.8
  cp_offset : ℝ := 1.2
  max_gimbal_angle : ℝ := 5 * Real.pi / 180

/-- From sim/config.py: RocketConfig.reference_area = pi * (diameter/2)^2. -/
noncomputable def RocketConfig.reference_area (c : RocketConfig) : ℝ :=
  Real.pi * (c.diameter / 2) ^ 2

/-- From sim/config.py: RocketConfig.total_mass = dry_mass + fuel_mass. -/
def RocketConfig.total_mass (c : RocketConfig) : ℝ :=
  c.dry_mass + c.fuel_mass

/-- From sim/config.py: EnvironmentConfig dataclass with its defaults. -/
structure EnvironmentConfig where
  gravity : ℝ := 9.81
  air_density : ℝ := 1.225

/-- From sim/config.py: SensorConfig dataclass with its defaults. -/
structure SensorConfig where
  accel_noise_std : ℝ := 0.5
  accel_bias : ℝ := 0.02
  accel_sample_rate : ℝ := 100
  gyro_noise_std : ℝ := 0.01
  gyro_bias : ℝ := 0.001
  gyro_sample_rate : ℝ := 100
  altimeter_noise_std : ℝ := 1
  altimeter_bias : ℝ := 0.5
  altimeter_sample_rate : ℝ := 50
  gps_pos_noise_std : ℝ := 2
  gps_vel_noise_std : ℝ := 0.3
  gps_sample_rate : ℝ := 10

/-- From sim/config.py: KalmanConfig dataclass with its defaults. -/
structure KalmanConfig where
  process_noise_pos : ℝ := 0.1
  process_noise_vel : ℝ := 1
  process_noise_theta : ℝ := 0.01
  process_noise_omega : ℝ := 0.1
  initial_pos_std : ℝ := 5
  initial_vel_std : ℝ := 1
  initial_theta_std : ℝ := 0.1
  initial_omega_std : ℝ := 0.05

/-- From sim/config.py: ControllerConfig dataclass with its defaults. -/
structure ControllerConfig where
  Kp : ℝ := 10
  Ki : ℝ := 0.5
  Kd : ℝ := 5
  target_theta : ℝ := 0
  output_min : ℝ := -(5 * Real.pi / 180)
  output_max : ℝ := 5 * Real.pi / 180
  integral_limit : ℝ := 5

/-- From sim/config.py: SimulationConfig dataclass aggregating the
sub-configs, with its defaults. -/
structure SimulationConfig where
  dt : ℝ := 0.01
  t_end : ℝ := 30
  t_burn : ℝ := 10
  rocket : RocketConfig := {}
  environment : EnvironmentConfig := {}
  sensor : SensorConfig := {}
  kalman : KalmanConfig := {}
  controller : ControllerConfig := {}

/-- Python's int() on a float: truncation toward zero. -/
noncomputable def truncToInt (x : ℝ) : ℤ :=
  if x < 0 then ⌈x⌉ else ⌊x⌋

/-- From sim/config.py: SimulationConfig.n_steps = int(t_end / dt). -/
noncomputable def SimulationConfig.n_steps (cfg : SimulationConfig) : ℤ :=
  truncToInt (cfg.t_end / cfg.dt)

/-- The dataclass-generated constructor of RocketConfig assigns the fields
and has no failure path (no validation anywhere in sim/config.py), so it
always returns some. -/
def mkRocketConfig (a b c d e f g h i j k : ℝ) : Option RocketConfig :=
  some { dry_mass := a, fuel_mass := b, max_thrust := c, Isp := d,
         length := e, diameter := f, drag_coeff := g, moment_of_inertia := h,
         cg_offset := i, cp_offset := j, max_gimbal_angle := k }

/-- The dataclass-generated constructor of SensorConfig assigns the fields
and has no failure path, so it always returns some. -/
def mkSensorConfig (a b c d e f g h i j k l : ℝ) : Option SensorConfig :=
  some { accel_noise_std := a, accel_bias := b, accel_sample_rate := c,
         gyro_noise_std := d, gyro_bias := e, gyro_sample_rate := f,
         altimeter_noise_std := g, altimeter_bias := h,
         altimeter_sample_rate := i, gps_pos_noise_std := j,
         gps_vel_noise_std := k, gps_sample_rate := l }

/-- The dataclass-generated constructor of SimulationConfig assigns the
fields and has no failure path, so it always returns some. -/
def mkSimulationConfig (dt te tb : ℝ) (r : RocketConfig)
    (e : EnvironmentConfig) (s : SensorConfig) (k : KalmanConfig)
    (c : ControllerConfig) : Option SimulationConfig :=
  some { dt := dt, t_end := te, t_burn := tb, rocket := r,
         environment := e, sensor := s, kalman := k, controller := c }

/-- C3 (counterexample): constructing configurations with non-positive
mass, sample rates, dt and total duration succeeds — the constructors do
not fail, contradicting the claim that they raise at construction time. -/
theorem config_invalid_construction_succeeds :
    (mkSimulationConfig (-1) (-1) 10 {} {} {} {} {}).isSome = true ∧
      (mkRocketConfig (-1) 0 1200 220 2 0.15 0.4 80 0.8 1.2
        (5 * Real.pi / 180)).isSome = true ∧
      (mkSensorConfig 0.5 0.02 (-100) 0.01 0.001 (-100) 1 0.5 (-50) 2 0.3
        (-10)).isSome = true :=
  ⟨rfl, rfl, rfl⟩

/-- C3 (amended): the configuration constructors perform no validation at
all: construction succeeds for every combination of numeric field values,
including ones that violate the documented invariants. -/
theorem config_construction_never_fails :
    (∀ (x y z : ℝ) (r : RocketConfig) (e : EnvironmentConfig)
        (s : SensorConfig) (k : KalmanConfig) (c : ControllerConfig),
      (mkSimulationConfig x y z r e s k c).isSome = true) ∧
      (∀ a b c d e f g h i j k : ℝ,
        (mkRocketConfig a b c d e f g h i j k).isSome = true) ∧
      (∀ a b c d e f g h i j k l : ℝ,
        (mkSensorConfig a b c d e f g h i j k l).isSome = true) :=
  ⟨fun _ _ _ _ _ _ _ _ => rfl, fun _ _ _ _ _ _ _ _ _ _ _ => rfl,
    fun _ _ _ _ _ _ _ _ _ _ _ _ => rfl⟩

/-- C6: for strictly positive dt and t_end, n_steps equals
floor(t_end / dt). -/
theorem SimulationConfig.n_steps_eq_floor (cfg : SimulationConfig)
    (hdt : 0 < cfg.dt) (hte : 0 < cfg.t_end) :
    cfg.n_steps = ⌊cfg.t_end / cfg.dt⌋ := by
  unfold SimulationConfig.n_steps truncToInt
  rw [if_neg (not_lt.2 (div_pos hte hdt).le)]

/-- C6 witness: the default configuration has dt = 0.01 > 0 and
t_end = 30 > 0, and its n_steps is 3000. -/
theorem SimulationConfig.n_steps_default_witness :
    0 < ({} : SimulationConfig).dt ∧ 0 < ({} : SimulationConfig).t_end ∧
      ({} : SimulationConfig).n_steps = 3000 := by
  have hdt : 0 < ({} : SimulationConfig).dt := by
    show (0:ℝ) < 0.01
    norm_num
  have hte : 0 < ({} : SimulationConfig).t_end := by
    show (0:ℝ) < 30
    norm_num
  refine ⟨hdt, hte, ?_⟩
  rw [SimulationConfig.n_steps_eq_floor {} hdt hte]
  have hdiv : ({} : SimulationConfig).t_end / ({} : SimulationConfig).dt
      = ((3000 : ℕ) : ℝ) := by
    show (30 : ℝ) / 0.01 = ((3000 : ℕ) : ℝ)
    norm_num
  rw [hdiv, Int.floor_natCast]
  norm_num

end FlightSim
